import Mathlib

/-!
Verification of the OM1-system-setup dashboard frontend.

The development shallowly embeds the two React components of the repository,
`StatusPanel.jsx` (the container Status Poller) and `WiFiStatus.jsx` (the
WiFi Network Selector).  Each async handler of the source becomes a pure
Lean function from the component state and the resolved HTTP result to an
outcome record that carries the next component state together with the
observable effects of that invocation (the HTTP request issued, the
user-visible alert raised, the console error logged, and any out-of-cadence
refetch triggered).  The `setInterval`/`clearInterval` polling lifecycle is
embedded as a discrete-time firing predicate.
-/

/- ===== Data model ===== -/

/-- One component's container status record, as read by
`StatusPanel.jsx` (`container_status` access): a `running` flag plus an
optional `status` label (e.g. the string "not_found"). -/
structure ContainerStatus where
  running : Bool
  status : Option String
deriving DecidableEq

/-- A named sub-stream of a component (`local_streams` / `cloud_streams`
entries rendered by `StatusPanel.jsx`). -/
structure StreamStatus where
  name : String
  status : String
deriving DecidableEq

/-- The per-component record of the container snapshot payload. -/
structure ComponentRecord where
  container_status : Option ContainerStatus
  local_streams : List StreamStatus
  cloud_streams : List StreamStatus
deriving DecidableEq

/-- The `/api/containers/status` data payload: one record per component,
each possibly absent, as accessed via optional chaining in
`StatusPanel.jsx`. -/
structure ContainersSnapshot where
  video_processor : Option ComponentRecord
  ros2_sensor : Option ComponentRecord
  orchestrator : Option ComponentRecord
deriving DecidableEq

/-- The `/api/wifi/status` data payload (`connected`, optional `ssid`). -/
structure WiFiStatusData where
  connected : Bool
  ssid : Option String
deriving DecidableEq

/-- A scanned network entry from `/api/wifi/networks`. -/
structure NetworkEntry where
  ssid : String
  signal : Int
  security : String
  connected : Bool
deriving DecidableEq

/-- The resolution of an awaited axios GET: either the promise rejected
(transport failure, handled by the `catch` block) or it resolved with a
response envelope carrying `success` and the `data` payload. -/
inductive FetchResult (α : Type) where
  | transportError : FetchResult α
  | response : Bool → α → FetchResult α
deriving DecidableEq

/-- Whether a fetch outcome is a failure in the sense of the spec: a
transport failure or a resolved response with `success:false`. -/
def FetchResult.isFailure {α : Type} : FetchResult α → Bool
  | FetchResult.transportError => true
  | FetchResult.response success _ => !success

/- ===== StatusPanel.jsx (Status Poller) ===== -/

/-- The component state of `StatusPanel.jsx`: the `containersData` and
`loading` `useState` hooks. -/
structure StatusPanelState where
  containersData : Option ContainersSnapshot
  loading : Bool
deriving DecidableEq

/-- The state and observable effects of one `fetchContainerStatus`
invocation: the next component state, whether a console error was logged,
and the user-visible alert raised (the source never raises one here). -/
structure ContainerFetchOutcome where
  state : StatusPanelState
  logged : Bool
  alert : Option String
deriving DecidableEq

/-- Embedding of `fetchContainerStatus` from `StatusPanel.jsx`:
on a resolved response with `success`, `setContainersData(response.data.data)`;
on a rejected promise, `console.error` then `setContainersData(null)`;
`setLoading(false)` in the `finally` block of every path.  A resolved
response with `success:false` runs neither branch body. -/
def fetchContainerStatus (s : StatusPanelState)
    (r : FetchResult ContainersSnapshot) : ContainerFetchOutcome :=
  match r with
  | FetchResult.transportError =>
      { state := { containersData := none, loading := false },
        logged := true, alert := none }
  | FetchResult.response success data =>
      if success then
        { state := { containersData := some data, loading := false },
          logged := false, alert := none }
      else
        { state := { s with loading := false }, logged := false, alert := none }

/-- Embedding of `getStatusColor` from `StatusPanel.jsx`. -/
def getStatusColor (status : Option ContainerStatus) : String :=
  match status with
  | none => "#6b7280"
  | some st => if st.running then "#10b981" else "#ef4444"

/-- Embedding of `getStatusText` from `StatusPanel.jsx`. -/
def getStatusText (status : Option ContainerStatus) : String :=
  match status with
  | none => "Unknown"
  | some st =>
      if st.running then "Running"
      else if st.status = some "not_found" then "Not Found"
      else "Stopped"

/- ===== WiFiStatus.jsx (Network Selector) ===== -/

/-- The component state of `WiFiStatus.jsx`: its eight `useState` hooks
(the `loading` hook is declared but never written after initialisation,
so it is omitted as inert). -/
structure WiFiComponentState where
  wifiStatus : Option WiFiStatusData
  networks : List NetworkEntry
  initialLoading : Bool
  scanning : Bool
  showNetworkList : Bool
  connecting : Bool
  selectedNetwork : Option NetworkEntry
  password : String
deriving DecidableEq

/-- The state and observable effects of one `fetchWiFiStatus` invocation. -/
structure WiFiFetchOutcome where
  state : WiFiComponentState
  logged : Bool
  alert : Option String
deriving DecidableEq

/-- Embedding of `fetchWiFiStatus` from `WiFiStatus.jsx`: on a resolved
response with `success`, `setWifiStatus(response.data.data)`; on a rejected
promise, only `console.error`; `setInitialLoading(false)` in the `finally`
block of every path.  No branch touches any other state field and no branch
raises an alert. -/
def fetchWiFiStatus (s : WiFiComponentState)
    (r : FetchResult WiFiStatusData) : WiFiFetchOutcome :=
  match r with
  | FetchResult.transportError =>
      { state := { s with initialLoading := false }, logged := true, alert := none }
  | FetchResult.response success data =>
      if success then
        { state := { s with wifiStatus := some data, initialLoading := false },
          logged := false, alert := none }
      else
        { state := { s with initialLoading := false }, logged := false, alert := none }

/-- The JSON body of the POST `/api/wifi/connect` request. -/
structure ConnectRequest where
  ssid : String
  password : String
deriving DecidableEq

/-- The response envelope of `/api/wifi/connect`: `success` plus an
optional `message`. -/
structure ConnectResponse where
  success : Bool
  message : Option String
deriving DecidableEq

/-- The resolution of the awaited axios POST in `connectToNetwork`. -/
inductive ConnectResult where
  | transportError : ConnectResult
  | response : ConnectResponse → ConnectResult
deriving DecidableEq

/-- The state and observable effects of one `connectToNetwork` invocation:
the next component state, the HTTP request issued (if any), the blocking
alert raised (if any), whether a console error was logged, and whether an
immediate out-of-cadence `fetchWiFiStatus` refetch was triggered. -/
structure ConnectOutcome where
  state : WiFiComponentState
  request : Option ConnectRequest
  alert : Option String
  logged : Bool
  refetchIssued : Bool
deriving DecidableEq

/-- JavaScript `a || d` on an optional string `a`: the default is taken
when the value is absent or is the empty string (both falsy). -/
def jsStringOr (m : Option String) (d : String) : String :=
  match m with
  | none => d
  | some str => if str = "" then d else str

/-- Embedding of `connectToNetwork` from `WiFiStatus.jsx`:
`if (!selectedNetwork) return;` guards everything; otherwise the POST is
issued with `{ssid: selectedNetwork.ssid, password}`.  On `success:true`
the attempt is cleared (`setSelectedNetwork(null)`, `setPassword('')`),
the list hidden (`setShowNetworkList(false)`), and `fetchWiFiStatus()` is
awaited immediately.  On `success:false` only
`alert(response.data.message || 'Failed to connect')` runs.  On a rejected
promise, `console.error` then `alert('Failed to connect to network')`.
`setConnecting(false)` runs in the `finally` block of every non-guarded
path. -/
def connectToNetwork (s : WiFiComponentState) (r : ConnectResult) : ConnectOutcome :=
  match s.selectedNetwork with
  | none =>
      { state := s, request := none, alert := none, logged := false,
        refetchIssued := false }
  | some net =>
      match r with
      | ConnectResult.transportError =>
          { state := { s with connecting := false },
            request := some { ssid := net.ssid, password := s.password },
            alert := some "Failed to connect to network",
            logged := true, refetchIssued := false }
      | ConnectResult.response resp =>
          if resp.success then
            { state := { s with selectedNetwork := none, password := "",
                                showNetworkList := false, connecting := false },
              request := some { ssid := net.ssid, password := s.password },
              alert := none, logged := false, refetchIssued := true }
          else
            { state := { s with connecting := false },
              request := some { ssid := net.ssid, password := s.password },
              alert := some (jsStringOr resp.message "Failed to connect"),
              logged := false, refetchIssued := false }

/-- Embedding of the `onClick` handler attached to every rendered network
entry in `WiFiStatus.jsx`: `setSelectedNetwork(network)`, unconditionally. -/
def selectNetwork (s : WiFiComponentState) (n : NetworkEntry) : WiFiComponentState :=
  { s with selectedNetwork := some n }

/-- Embedding of the render condition of the credential-entry (password)
block in `WiFiStatus.jsx`: it is rendered inside the
`showNetworkList && ...` region, under
`selectedNetwork && !selectedNetwork.connected`. -/
def credentialStepShown (s : WiFiComponentState) : Bool :=
  s.showNetworkList &&
    (match s.selectedNetwork with
     | none => false
     | some n => !n.connected)

/-- Embedding of `getSignalIcon` from `WiFiStatus.jsx`. -/
def getSignalIcon (signal : Int) : String :=
  if signal ≥ 75 then "▂▄▆█"
  else if signal ≥ 50 then "▂▄▆"
  else if signal ≥ 25 then "▂▄"
  else "▂"

/- ===== Polling lifecycle ===== -/

/-- Discrete-time embedding of the polling `useEffect` of `StatusPanel.jsx`:
on mount (time 0) an immediate fetch, then `setInterval(fetch, 5000)` fires
at every positive multiple of 5000 ms until the cleanup's `clearInterval`
runs at unmount time `u`.  `statusPollerFetchFires u t` states whether a
fetch invocation occurs `t` milliseconds after mount, given the component
is unmounted at time `u`. -/
def statusPollerFetchFires (u t : Nat) : Bool :=
  (t == 0) || ((t % 5000 == 0) && (!(t == 0)) && decide (t < u))

/-- Discrete-time embedding of the polling `useEffect` of `WiFiStatus.jsx`,
identical in structure to the one of `StatusPanel.jsx`: immediate
`fetchWiFiStatus()` on mount, `setInterval(fetchWiFiStatus, 5000)`,
`clearInterval` in the cleanup at unmount time `u`. -/
def wifiPollerFetchFires (u t : Nat) : Bool :=
  (t == 0) || ((t % 5000 == 0) && (!(t == 0)) && decide (t < u))

/- ===== Theorems ===== -/

/-- C5: for every integer signal value, `getSignalIcon` maps
`signal ≥ 75` to the full-bars icon, `50 ≤ signal < 75` to the
three-quarter icon, `25 ≤ signal < 50` to the half icon, and
`signal < 25` to the minimal icon. -/
theorem C5_signal_buckets (signal : Int) :
    (75 ≤ signal → getSignalIcon signal = "▂▄▆█") ∧
    (50 ≤ signal → signal < 75 → getSignalIcon signal = "▂▄▆") ∧
    (25 ≤ signal → signal < 50 → getSignalIcon signal = "▂▄") ∧
    (signal < 25 → getSignalIcon signal = "▂") := by
  refine ⟨fun h => ?_, fun h1 h2 => ?_, fun h1 h2 => ?_, fun h => ?_⟩ <;>
    · unfold getSignalIcon
      split_ifs <;> first | rfl | omega

/-- Witness for C5 at the claim's boundary inputs 75, 74, 50, 49, 25, 24, 0. -/
theorem C5_signal_buckets_witness :
    getSignalIcon 75 = "▂▄▆█" ∧ getSignalIcon 74 = "▂▄▆" ∧
    getSignalIcon 50 = "▂▄▆" ∧ getSignalIcon 49 = "▂▄" ∧
    getSignalIcon 25 = "▂▄" ∧ getSignalIcon 24 = "▂" ∧
    getSignalIcon 0 = "▂" :=
  ⟨(C5_signal_buckets 75).1 (by decide),
   (C5_signal_buckets 74).2.1 (by decide) (by decide),
   (C5_signal_buckets 50).2.1 (by decide) (by decide),
   (C5_signal_buckets 49).2.2.1 (by decide) (by decide),
   (C5_signal_buckets 25).2.2.1 (by decide) (by decide),
   (C5_signal_buckets 24).2.2.2 (by decide),
   (C5_signal_buckets 0).2.2.2 (by decide)⟩

/-- C6: the pure rendering derivations of `StatusPanel.jsx`: an absent
record renders gray "Unknown"; `running:true` renders green "Running";
`running:false` with status "not_found" renders red "Not Found"; any other
non-running record renders red "Stopped". -/
theorem C6_status_rendering (st : Option ContainerStatus) :
    (st = none → getStatusColor st = "#6b7280" ∧ getStatusText st = "Unknown") ∧
    (∀ cs : ContainerStatus, st = some cs →
      (cs.running = true →
        getStatusColor st = "#10b981" ∧ getStatusText st = "Running") ∧
      (cs.running = false →
        getStatusColor st = "#ef4444" ∧
        (cs.status = some "not_found" → getStatusText st = "Not Found") ∧
        (cs.status ≠ some "not_found" → getStatusText st = "Stopped"))) := by
  refine ⟨fun h => ?_, fun cs h => ?_⟩
  · subst h; exact ⟨rfl, rfl⟩
  · subst h
    refine ⟨fun hr => ?_, fun hr => ?_⟩
    · simp [getStatusColor, getStatusText, hr]
    · refine ⟨by simp [getStatusColor, hr], fun hs => ?_, fun hs => ?_⟩
      · simp [getStatusText, hr, hs]
      · simp [getStatusText, hr, hs]

/-- Witness for C6 on the four concrete record shapes. -/
theorem C6_status_rendering_witness :
    (getStatusColor none = "#6b7280" ∧ getStatusText none = "Unknown") ∧
    (getStatusColor (some ⟨true, none⟩) = "#10b981" ∧
      getStatusText (some ⟨true, none⟩) = "Running") ∧
    (getStatusColor (some ⟨false, some "not_found"⟩) = "#ef4444" ∧
      getStatusText (some ⟨false, some "not_found"⟩) = "Not Found") ∧
    getStatusText (some ⟨false, some "exited"⟩) = "Stopped" :=
  ⟨(C6_status_rendering none).1 rfl,
   ((C6_status_rendering (some ⟨true, none⟩)).2 ⟨true, none⟩ rfl).1 rfl,
   ⟨(((C6_status_rendering (some ⟨false, some "not_found"⟩)).2
        ⟨false, some "not_found"⟩ rfl).2 rfl).1,
    (((C6_status_rendering (some ⟨false, some "not_found"⟩)).2
        ⟨false, some "not_found"⟩ rfl).2 rfl).2.1 rfl⟩,
   (((C6_status_rendering (some ⟨false, some "exited"⟩)).2
        ⟨false, some "exited"⟩ rfl).2 rfl).2.2 (by decide)⟩

/-- C3: in every component state, clicking a network entry with
`connected:true` never opens the credential-entry step, while clicking an
entry with `connected:false` makes it the held selection and shows the
credential step exactly when the network list is shown. -/
theorem C3_connected_selection_inert (s : WiFiComponentState) (n : NetworkEntry) :
    (n.connected = true → credentialStepShown (selectNetwork s n) = false) ∧
    (n.connected = false →
      (selectNetwork s n).selectedNetwork = some n ∧
      credentialStepShown (selectNetwork s n) = s.showNetworkList) := by
  refine ⟨fun h => ?_, fun h => ⟨rfl, ?_⟩⟩ <;>
    simp [credentialStepShown, selectNetwork, h]

/-- Witness for C3: a connected entry selected from an open list does not
open the credential step; a non-connected one does. -/
theorem C3_connected_selection_inert_witness :
    credentialStepShown
      (selectNetwork ⟨none, [], false, false, true, false, none, ""⟩
        ⟨"HomeNet", 80, "WPA2", true⟩) = false ∧
    credentialStepShown
      (selectNetwork ⟨none, [], false, false, true, false, none, ""⟩
        ⟨"CafeNet", 60, "WPA2", false⟩) = true :=
  ⟨(C3_connected_selection_inert ⟨none, [], false, false, true, false, none, ""⟩
      ⟨"HomeNet", 80, "WPA2", true⟩).1 rfl,
   ((C3_connected_selection_inert ⟨none, [], false, false, true, false, none, ""⟩
      ⟨"CafeNet", 60, "WPA2", false⟩).2 rfl).2⟩

/-- C10: from the credential-entry step with a typed password, clicking a
different non-connected entry changes only the selection: the new entry is
held, the credential step stays open, and the password and every other
state field are unchanged. -/
theorem C10_reselect_keeps_password (s : WiFiComponentState) (n : NetworkEntry)
    (hshown : credentialStepShown s = true) (hn : n.connected = false) :
    (selectNetwork s n).password = s.password ∧
    (selectNetwork s n).selectedNetwork = some n ∧
    credentialStepShown (selectNetwork s n) = true ∧
    (selectNetwork s n).wifiStatus = s.wifiStatus ∧
    (selectNetwork s n).networks = s.networks ∧
    (selectNetwork s n).initialLoading = s.initialLoading ∧
    (selectNetwork s n).scanning = s.scanning ∧
    (selectNetwork s n).showNetworkList = s.showNetworkList ∧
    (selectNetwork s n).connecting = s.connecting := by
  have hlist : s.showNetworkList = true := by
    simp only [credentialStepShown, Bool.and_eq_true] at hshown
    exact hshown.1
  refine ⟨rfl, rfl, ?_, rfl, rfl, rfl, rfl, rfl, rfl⟩
  simp [credentialStepShown, selectNetwork, hlist, hn]

/-- Witness for C10: with "CafeNet" selected and password "hunter2" typed,
clicking "OtherNet" keeps the password and switches the selection. -/
theorem C10_reselect_keeps_password_witness :
    (selectNetwork
      ⟨none, [], false, false, true, false,
        some ⟨"CafeNet", 60, "WPA2", false⟩, "hunter2"⟩
      ⟨"OtherNet", 40, "WPA2", false⟩).password = "hunter2" ∧
    (selectNetwork
      ⟨none, [], false, false, true, false,
        some ⟨"CafeNet", 60, "WPA2", false⟩, "hunter2"⟩
      ⟨"OtherNet", 40, "WPA2", false⟩).selectedNetwork
      = some ⟨"OtherNet", 40, "WPA2", false⟩ :=
  ⟨(C10_reselect_keeps_password
      ⟨none, [], false, false, true, false,
        some ⟨"CafeNet", 60, "WPA2", false⟩, "hunter2"⟩
      ⟨"OtherNet", 40, "WPA2", false⟩ (by decide) rfl).1,
   (C10_reselect_keeps_password
      ⟨none, [], false, false, true, false,
        some ⟨"CafeNet", 60, "WPA2", false⟩, "hunter2"⟩
      ⟨"OtherNet", 40, "WPA2", false⟩ (by decide) rfl).2.1⟩

/-- C9: with no network selected, `connectToNetwork` is a no-op for every
possible request resolution: no HTTP request, no alert, no log, no refetch,
and the component state is returned unchanged. -/
theorem C9_no_selection_noop (s : WiFiComponentState) (r : ConnectResult)
    (h : s.selectedNetwork = none) :
    connectToNetwork s r =
      { state := s, request := none, alert := none, logged := false,
        refetchIssued := false } := by
  unfold connectToNetwork
  rw [h]

/-- Witness for C9 on an empty initial state and a success response. -/
theorem C9_no_selection_noop_witness :
    connectToNetwork ⟨none, [], true, false, false, false, none, ""⟩
        (ConnectResult.response ⟨true, none⟩) =
      { state := ⟨none, [], true, false, false, false, none, ""⟩,
        request := none, alert := none, logged := false,
        refetchIssued := false } :=
  C9_no_selection_noop ⟨none, [], true, false, false, false, none, ""⟩
    (ConnectResult.response ⟨true, none⟩) rfl

/-- C4: a connect request that resolves with `success:true` clears the
selection and the password, closes the network list, raises no alert, and
triggers the immediate out-of-cadence WiFi status refetch. -/
theorem C4_connect_success (s : WiFiComponentState) (net : NetworkEntry)
    (resp : ConnectResponse) (hsel : s.selectedNetwork = some net)
    (hs : resp.success = true) :
    (connectToNetwork s (ConnectResult.response resp)).state.selectedNetwork = none ∧
    (connectToNetwork s (ConnectResult.response resp)).state.password = "" ∧
    (connectToNetwork s (ConnectResult.response resp)).state.showNetworkList = false ∧
    (connectToNetwork s (ConnectResult.response resp)).alert = none ∧
    (connectToNetwork s (ConnectResult.response resp)).refetchIssued = true := by
  unfold connectToNetwork
  rw [hsel]
  simp [hs]

/-- Witness for C4: a successful connect from a state holding "CafeNet" and
password "hunter2". -/
theorem C4_connect_success_witness :
    (connectToNetwork
      ⟨none, [⟨"CafeNet", 60, "WPA2", false⟩], false, false, true, false,
        some ⟨"CafeNet", 60, "WPA2", false⟩, "hunter2"⟩
      (ConnectResult.response ⟨true, none⟩)).state.selectedNetwork = none ∧
    (connectToNetwork
      ⟨none, [⟨"CafeNet", 60, "WPA2", false⟩], false, false, true, false,
        some ⟨"CafeNet", 60, "WPA2", false⟩, "hunter2"⟩
      (ConnectResult.response ⟨true, none⟩)).refetchIssued = true :=
  ⟨(C4_connect_success
      ⟨none, [⟨"CafeNet", 60, "WPA2", false⟩], false, false, true, false,
        some ⟨"CafeNet", 60, "WPA2", false⟩, "hunter2"⟩
      ⟨"CafeNet", 60, "WPA2", false⟩ ⟨true, none⟩ rfl rfl).1,
   (C4_connect_success
      ⟨none, [⟨"CafeNet", 60, "WPA2", false⟩], false, false, true, false,
        some ⟨"CafeNet", 60, "WPA2", false⟩, "hunter2"⟩
      ⟨"CafeNet", 60, "WPA2", false⟩ ⟨true, none⟩ rfl rfl).2.2.2.2⟩

/-- C1 counterexample: a connect attempt holding "CafeNet" with typed
password "hunter2" that resolves `success:false` with message
"bad password" does raise the alert "bad password" and leaves the list
open, but it does NOT clear the ConnectionAttempt: the selected network
and the password are retained unchanged, contradicting the claim that both
are cleared. -/
theorem C1_counterexample :
    (connectToNetwork
      ⟨none, [], false, false, true, false,
        some ⟨"CafeNet", 60, "WPA2", false⟩, "hunter2"⟩
      (ConnectResult.response ⟨false, some "bad password"⟩)).alert
        = some "bad password" ∧
    (connectToNetwork
      ⟨none, [], false, false, true, false,
        some ⟨"CafeNet", 60, "WPA2", false⟩, "hunter2"⟩
      (ConnectResult.response ⟨false, some "bad password"⟩)).state.showNetworkList
        = true ∧
    ¬ (connectToNetwork
      ⟨none, [], false, false, true, false,
        some ⟨"CafeNet", 60, "WPA2", false⟩, "hunter2"⟩
      (ConnectResult.response ⟨false, some "bad password"⟩)).state.selectedNetwork
        = none ∧
    ¬ (connectToNetwork
      ⟨none, [], false, false, true, false,
        some ⟨"CafeNet", 60, "WPA2", false⟩, "hunter2"⟩
      (ConnectResult.response ⟨false, some "bad password"⟩)).state.password
        = "" := by
  decide

/-- C1 amended: a connect request resolving with `success:false` raises a
blocking alert whose text is the server-provided message (falling back to
"Failed to connect" when the message is absent or empty), leaves the
network list state unchanged (so an open list stays open), issues no
refetch, and retains the ConnectionAttempt unchanged: the selected network
and the entered password keep their values. -/
theorem C1_connect_failure (s : WiFiComponentState) (net : NetworkEntry)
    (resp : ConnectResponse) (hsel : s.selectedNetwork = some net)
    (hf : resp.success = false) :
    (connectToNetwork s (ConnectResult.response resp)).alert
      = some (jsStringOr resp.message "Failed to connect") ∧
    (connectToNetwork s (ConnectResult.response resp)).state.showNetworkList
      = s.showNetworkList ∧
    (connectToNetwork s (ConnectResult.response resp)).state.selectedNetwork
      = s.selectedNetwork ∧
    (connectToNetwork s (ConnectResult.response resp)).state.password
      = s.password ∧
    (connectToNetwork s (ConnectResult.response resp)).refetchIssued = false := by
  unfold connectToNetwork
  rw [hsel]
  simp [hf, hsel]

/-- Witness for C1 amended: the failing connect of the counterexample state
alerts "bad password" and keeps selection and password. -/
theorem C1_connect_failure_witness :
    (connectToNetwork
      ⟨none, [], false, false, true, false,
        some ⟨"CafeNet", 60, "WPA2", false⟩, "hunter2"⟩
      (ConnectResult.response ⟨false, some "bad password"⟩)).alert
        = some (jsStringOr (some "bad password") "Failed to connect") ∧
    (connectToNetwork
      ⟨none, [], false, false, true, false,
        some ⟨"CafeNet", 60, "WPA2", false⟩, "hunter2"⟩
      (ConnectResult.response ⟨false, some "bad password"⟩)).state.password
        = "hunter2" :=
  ⟨(C1_connect_failure
      ⟨none, [], false, false, true, false,
        some ⟨"CafeNet", 60, "WPA2", false⟩, "hunter2"⟩
      ⟨"CafeNet", 60, "WPA2", false⟩ ⟨false, some "bad password"⟩ rfl rfl).1,
   (C1_connect_failure
      ⟨none, [], false, false, true, false,
        some ⟨"CafeNet", 60, "WPA2", false⟩, "hunter2"⟩
      ⟨"CafeNet", 60, "WPA2", false⟩ ⟨false, some "bad password"⟩ rfl rfl).2.2.2.1⟩

/-- C2 counterexample: with a non-null container snapshot displayed, a poll
that resolves with `success:false` does NOT clear the snapshot to null and
does NOT log: `fetchContainerStatus` leaves the displayed snapshot exactly
as it was, contradicting the claim that every failure outcome (including
`success:false` responses) clears it and logs the error. -/
theorem C2_counterexample :
    (FetchResult.response false (ContainersSnapshot.mk none none none)
      : FetchResult ContainersSnapshot).isFailure = true ∧
    ¬ (fetchContainerStatus
        ⟨some ⟨some ⟨none, [], []⟩, none, none⟩, false⟩
        (FetchResult.response false ⟨none, none, none⟩)).state.containersData
        = none ∧
    (fetchContainerStatus
        ⟨some ⟨some ⟨none, [], []⟩, none, none⟩, false⟩
        (FetchResult.response false ⟨none, none, none⟩)).logged = false := by
  decide

/-- C2 amended: `fetchContainerStatus` clears the displayed snapshot to
null and logs the error only on a transport failure; a response with
`success:false` leaves the snapshot unchanged and logs nothing; a
successful poll replaces the snapshot wholesale with the response data.
No path raises a user-facing alert. -/
theorem C2_container_fetch (s : StatusPanelState)
    (data : ContainersSnapshot) (b : Bool) :
    ((fetchContainerStatus s FetchResult.transportError).state.containersData
        = none ∧
      (fetchContainerStatus s FetchResult.transportError).logged = true) ∧
    ((fetchContainerStatus s (FetchResult.response false data)).state.containersData
        = s.containersData ∧
      (fetchContainerStatus s (FetchResult.response false data)).logged = false) ∧
    (fetchContainerStatus s (FetchResult.response true data)).state.containersData
        = some data ∧
    (fetchContainerStatus s (FetchResult.response b data)).alert = none ∧
    (fetchContainerStatus s FetchResult.transportError).alert = none := by
  refine ⟨⟨rfl, rfl⟩, ⟨rfl, rfl⟩, rfl, ?_, rfl⟩
  cases b <;> rfl

/-- C7: a WiFi status poll that fails — a transport failure or a response
with `success:false` — leaves the displayed WiFi snapshot and every other
workflow field unchanged and raises no alert; at most a console error is
emitted (and only on the transport failure). -/
theorem C7_wifi_fetch_failure_retains (s : WiFiComponentState)
    (r : FetchResult WiFiStatusData) (h : r.isFailure = true) :
    (fetchWiFiStatus s r).state.wifiStatus = s.wifiStatus ∧
    (fetchWiFiStatus s r).state.networks = s.networks ∧
    (fetchWiFiStatus s r).state.selectedNetwork = s.selectedNetwork ∧
    (fetchWiFiStatus s r).state.password = s.password ∧
    (fetchWiFiStatus s r).state.showNetworkList = s.showNetworkList ∧
    (fetchWiFiStatus s r).alert = none := by
  match r with
  | FetchResult.transportError =>
      exact ⟨rfl, rfl, rfl, rfl, rfl, rfl⟩
  | FetchResult.response success data =>
      have hs : success = false := by
        simpa [FetchResult.isFailure] using h
      subst hs
      exact ⟨rfl, rfl, rfl, rfl, rfl, rfl⟩

/-- Witness for C7: a `success:false` poll against a state showing a
connected network retains that snapshot and alerts nothing. -/
theorem C7_wifi_fetch_failure_retains_witness :
    (fetchWiFiStatus
      ⟨some ⟨true, some "HomeNet"⟩, [], false, false, false, false, none, ""⟩
      (FetchResult.response false ⟨false, none⟩)).state.wifiStatus
      = some ⟨true, some "HomeNet"⟩ ∧
    (fetchWiFiStatus
      ⟨some ⟨true, some "HomeNet"⟩, [], false, false, false, false, none, ""⟩
      (FetchResult.response false ⟨false, none⟩)).alert = none :=
  ⟨(C7_wifi_fetch_failure_retains
      ⟨some ⟨true, some "HomeNet"⟩, [], false, false, false, false, none, ""⟩
      (FetchResult.response false ⟨false, none⟩) rfl).1,
   (C7_wifi_fetch_failure_retains
      ⟨some ⟨true, some "HomeNet"⟩, [], false, false, false, false, none, ""⟩
      (FetchResult.response false ⟨false, none⟩) rfl).2.2.2.2.2⟩

/-- C8: both pollers fetch immediately on mount and at every positive
multiple of 5000 ms that precedes the unmount time, and once the cleanup
has run no fetch fires at or after teardown plus one interval period. -/
theorem C8_poller_lifecycle (u t k : Nat) :
    (u + 5000 ≤ t →
      statusPollerFetchFires u t = false ∧ wifiPollerFetchFires u t = false) ∧
    (statusPollerFetchFires u 0 = true ∧ wifiPollerFetchFires u 0 = true) ∧
    (k ≠ 0 → 5000 * k < u →
      statusPollerFetchFires u (5000 * k) = true ∧
      wifiPollerFetchFires u (5000 * k) = true) := by
  refine ⟨fun h => ?_, ⟨rfl, rfl⟩, fun hk hu => ?_⟩
  · have h0 : (t == 0) = false := by simp; omega
    have h1 : decide (t < u) = false := by simp; omega
    constructor <;>
      simp [statusPollerFetchFires, wifiPollerFetchFires, h0, h1]
  · have h0 : (5000 * k == 0) = false := by simp; omega
    have h1 : (5000 * k % 5000 == 0) = true := by simp [Nat.mul_mod_right]
    have h2 : decide (5000 * k < u) = true := by simp [hu]
    constructor <;>
      simp [statusPollerFetchFires, wifiPollerFetchFires, h0, h1, h2]

/-- Witness for C8: with unmount at 7000 ms, no fetch fires at 12000 ms,
while the immediate mount fetch and the 5000 ms interval tick both fire. -/
theorem C8_poller_lifecycle_witness :
    statusPollerFetchFires 7000 12000 = false ∧
    wifiPollerFetchFires 7000 12000 = false ∧
    statusPollerFetchFires 7000 0 = true ∧
    wifiPollerFetchFires 7000 (5000 * 1) = true :=
  ⟨((C8_poller_lifecycle 7000 12000 0).1 (by decide)).1,
   ((C8_poller_lifecycle 7000 12000 0).1 (by decide)).2,
   (C8_poller_lifecycle 7000 0 0).2.1.1,
   ((C8_poller_lifecycle 7000 0 1).2.2 (by decide) (by decide)).2⟩
